import Mathlib

/-
Verification of the temporal_streets era-mapping pipeline (src/map_eras.py).

Strings are modelled as `List Char`.  Python's `str.lower` and the regular
expressions used by the source are modelled over ASCII, which covers every
pattern constant appearing in the source.  The Wikipedia collaborator
(`wikipedia.page`) is modelled as an oracle from a query string to one of the
outcomes the source distinguishes: a page with content, a
`DisambiguationError` carrying the candidate titles, or any other exception
(network failure, `PageError`, ...), which line 74 of the source treats
uniformly.
-/

namespace TemporalStreets

/-- The ASCII case pairs, upper then lower. -/
def upperLower : List (Char × Char) :=
  [('A','a'), ('B','b'), ('C','c'), ('D','d'), ('E','e'), ('F','f'), ('G','g'),
   ('H','h'), ('I','i'), ('J','j'), ('K','k'), ('L','l'), ('M','m'), ('N','n'),
   ('O','o'), ('P','p'), ('Q','q'), ('R','r'), ('S','s'), ('T','t'), ('U','u'),
   ('V','v'), ('W','w'), ('X','x'), ('Y','y'), ('Z','z')]

/-- ASCII model of Python `str.lower` applied to one character. -/
def lowerChar (c : Char) : Char :=
  match upperLower.find? (fun p => p.1 == c) with
  | some p => p.2
  | none => c

/-- Python `str.lower` on a whole string. -/
def toLowerL (s : List Char) : List Char := s.map lowerChar

/-- Prefix test, modelling Python `str.startswith` (first argument is the
prefix looked for). -/
def startsWithL : List Char → List Char → Bool
  | [], _ => true
  | _ :: _, [] => false
  | p :: ps, c :: cs => p == c && startsWithL ps cs

/-- Decimal digit to its character, used to model Python string formatting. -/
def digitChar : Nat → Char
  | 0 => '0' | 1 => '1' | 2 => '2' | 3 => '3' | 4 => '4'
  | 5 => '5' | 6 => '6' | 7 => '7' | 8 => '8' | 9 => '9'
  | _ => '?'

/-- Fuel-indexed decimal rendering of a natural number (the fuel makes the
recursion structural; `natDigits` supplies enough fuel). -/
def natDigitsAux : Nat → Nat → List Char
  | 0, n => [digitChar (n % 10)]
  | fuel + 1, n =>
    if n < 10 then [digitChar n]
    else natDigitsAux fuel (n / 10) ++ [digitChar (n % 10)]

/-- Decimal digits of a natural number, most significant first. -/
def natDigits (n : Nat) : List Char := natDigitsAux n n

/-- Decimal rendering of an integer, modelling Python f-string formatting. -/
def intChars (i : Int) : List Char :=
  if i < 0 then '-' :: natDigits i.natAbs else natDigits i.toNat

/-- Numeric value of a digit string, modelling Python `int(...)` on the
digit-only group captured by `re.search(r"(\d+)", ...)`. -/
def digitsToNat (l : List Char) : Nat :=
  l.foldl (fun a c => 10 * a + (c.toNat - 48)) 0

/-- First maximal run of decimal digits in a string: the group captured by
`re.search(r"(\d+)", century)`, `none` when the search fails (in Python that
makes `.group(1)` raise `AttributeError`). -/
def firstDigitRun : List Char → Option (List Char)
  | [] => none
  | c :: cs =>
    if c.isDigit then some (c :: cs.takeWhile Char.isDigit)
    else firstDigitRun cs

/-- The suffix expression of src/map_eras.py line 16: the dict
`{1: 'st', 2: 'nd', 3: 'rd'}` looked up at `century if century < 4 else 4`
with default `'th'`. -/
def ordinalSuffix (century : Int) : List Char :=
  let key : Int := if century < 4 then century else 4
  if key = 1 then ['s', 't']
  else if key = 2 then ['n', 'd']
  else if key = 3 then ['r', 'd']
  else ['t', 'h']

/-- Source `year_to_century` (src/map_eras.py lines 13-17):
`century = (year - 1) // 100 + 1` (Python floor division), then the ordinal
suffix, then `" century"`. -/
def year_to_century (year : Int) : List Char :=
  let century : Int := (year - 1).fdiv 100 + 1
  intChars century ++ ordinalSuffix century ++
    [' ', 'c', 'e', 'n', 't', 'u', 'r', 'y']

/-- The `era_mapping` list of src/map_eras.py lines 22-27; each Python
`range(lo, hi)` is the half-open interval `[lo, hi)`. -/
def era_mapping : List (Nat × Nat × String) :=
  [(1, 6, "ancient"), (6, 16, "medieval"), (16, 19, "early modern"),
   (19, 21, "modern")]

/-- The `for century_range, era in era_mapping` loop of lines 28-30. -/
def rangeLookup (n : Nat) : List (Nat × Nat × String) → Option String
  | [] => none
  | (lo, hi, e) :: rest =>
    if lo ≤ n ∧ n < hi then some e else rangeLookup n rest

/-- The pattern constant `'20th'` of line 31. -/
def th20 : List Char := ['2', '0', 't', 'h']

/-- Source `century_to_era` (src/map_eras.py lines 19-31).  Returns `none`
when the century string contains no digit, in which case the Python code
raises `AttributeError` from `.group(1)` on a failed `re.search`. -/
def century_to_era (century : List Char) : Option String :=
  match firstDigitRun century with
  | none => none
  | some ds =>
    let n := digitsToNat ds
    match rangeLookup n era_mapping with
    | some era => some era
    | none =>
      some (if startsWithL th20 (toLowerL century) then "contemporary"
            else "unknown")

/-- The closed EraLabel set of the data model. -/
def eraLabelSet : List String :=
  ["ancient", "medieval", "early modern", "modern", "contemporary", "unknown"]

/-- Python regex word character `\w` (ASCII model): letters, digits, `_`. -/
def isWordChar (c : Char) : Bool := c.isAlphanum || c == '_'

/-- Word boundary `\b` before a word character: the previous character (if
any) must not be a word character. -/
def boundaryOk : Option Char → Bool
  | none => true
  | some p => !isWordChar p

/-- Word boundary `\b` after a word character: the next character (if any)
must not be a word character. -/
def boundaryAfter : List Char → Bool
  | [] => true
  | c :: _ => !isWordChar c

/-- Case-insensitive literal-prefix match (the pattern is given lowercase);
returns the rest of the text after the prefix.  Models matching a literal
piece of a regex compiled with `re.IGNORECASE`. -/
def startsWithCI : List Char → List Char → Option (List Char)
  | [], l => some l
  | _ :: _, [] => none
  | p :: ps, c :: cs => if lowerChar c = p then startsWithCI ps cs else none

/-- The literal tail `" century"` of the first era pattern
`r'\b(\d{1,2})(?:st|nd|rd|th)? century\b'`, followed by the final `\b`. -/
def centuryTailOk (l : List Char) : Bool :=
  match startsWithCI [' ', 'c', 'e', 'n', 't', 'u', 'r', 'y'] l with
  | some rest => boundaryAfter rest
  | none => false

/-- After the captured digits of the century pattern: the optional ordinal
suffix `(?:st|nd|rd|th)?` (greedy, so a present suffix is tried before an
absent one) and then `" century"` with the closing `\b`. -/
def matchTail (l : List Char) : Bool :=
  (match startsWithCI ['s', 't'] l with
   | some r => centuryTailOk r | none => false) ||
  (match startsWithCI ['n', 'd'] l with
   | some r => centuryTailOk r | none => false) ||
  (match startsWithCI ['r', 'd'] l with
   | some r => centuryTailOk r | none => false) ||
  (match startsWithCI ['t', 'h'] l with
   | some r => centuryTailOk r | none => false) ||
  centuryTailOk l

/-- Attempt of the century pattern at a position whose first character `c`
is a digit with a word boundary before it; `rest` is the following text.
`\d{1,2}` is greedy, so two digits are tried before one. -/
def tryCenturyAt (c : Char) (rest : List Char) : Option (List Char) :=
  match rest with
  | d :: rest2 =>
    if d.isDigit then
      if matchTail rest2 then some [c, d]
      else if matchTail rest then some [c]
      else none
    else if matchTail rest then some [c] else none
  | [] => none

/-- Left-to-right scan of `re.search` for the century pattern; `prev` is the
character before the current position (for the leading `\b`). -/
def searchCenturyAux : Option Char → List Char → Option (List Char)
  | _, [] => none
  | prev, c :: rest =>
    if boundaryOk prev && c.isDigit then
      match tryCenturyAt c rest with
      | some g => some g
      | none => searchCenturyAux (some c) rest
    else searchCenturyAux (some c) rest

/-- `re.search` of the first era pattern of src/map_eras.py line 37:
`r'\b(\d{1,2})(?:st|nd|rd|th)? century\b'` with `re.IGNORECASE`; returns the
group, i.e. the captured century digits. -/
def searchCentury (content : List Char) : Option (List Char) :=
  searchCenturyAux none content

/-- Attempt of the pattern `r'\b(\d{4})\b'` at one position: four digits
followed by a word boundary (the leading boundary is checked by the
caller). -/
def year4At : List Char → Option (List Char)
  | a :: b :: c :: d :: rest =>
    if a.isDigit && b.isDigit && c.isDigit && d.isDigit && boundaryAfter rest
    then some [a, b, c, d] else none
  | _ => none

/-- Left-to-right scan of `re.search` for the bare four-digit pattern. -/
def searchYear4Aux : Option Char → List Char → Option (List Char)
  | _, [] => none
  | prev, c :: rest =>
    if boundaryOk prev then
      match year4At (c :: rest) with
      | some g => some g
      | none => searchYear4Aux (some c) rest
    else searchYear4Aux (some c) rest

/-- `re.search` of the second era pattern of src/map_eras.py line 38:
`r'\b(\d{4})\b'`; returns the captured four digits. -/
def searchYear4 (content : List Char) : Option (List Char) :=
  searchYear4Aux none content

/-- The era-extraction loop of src/map_eras.py lines 54-60: the two era
patterns are tried in order over the whole text and the loop breaks at the
first pattern that matches anywhere; a group that is all digits of length 4
is converted through `year_to_century`. -/
def extract_era (content : List Char) : Option (List Char) :=
  let m :=
    match searchCentury content with
    | some g => some g
    | none => searchYear4 content
  match m with
  | none => none
  | some era =>
    some (if (era ≠ [] ∧ era.all Char.isDigit) ∧ era.length = 4
          then year_to_century (digitsToNat era)
          else era)

/-- The capture `([^.]+)\.` shared by all five context patterns: a maximal
nonempty run of non-dot characters followed by a literal dot.  `[^.]+`
cannot match a dot, so regex backtracking never shortens the run: the match
succeeds exactly when the run is nonempty and is followed by a dot. -/
def captureRun (l : List Char) : Option (List Char) :=
  let g := l.takeWhile (fun c => c != '.')
  match l.dropWhile (fun c => c != '.') with
  | [] => none
  | _ :: _ => if g.isEmpty then none else some g

/-- Try a list of literal prefixes (in regex backtracking order) at one
position; for the first prefix that matches and whose remainder admits the
capture `([^.]+)\.`, return the capture. -/
def tryCapture (cands : List (List Char)) (l : List Char) : Option (List Char) :=
  match cands with
  | [] => none
  | p :: ps =>
    match startsWithCI p l with
    | some rest =>
      match captureRun rest with
      | some g => some g
      | none => tryCapture ps l
    | none => tryCapture ps l

/-- Left-to-right scan of `re.search` for one context template. -/
def searchTemplateAux (cands : List (List Char)) : List Char → Option (List Char)
  | [] => none
  | c :: rest =>
    match tryCapture cands (c :: rest) with
    | some g => some g
    | none => searchTemplateAux cands rest

/-- Characters of a string literal. -/
def chars (s : String) : List Char := s.data

/-- The optional-article piece `(?:the|an?)? ?` of the commemorate and
celebrate patterns, expanded in regex backtracking order (article
alternatives `the`, `an`, `a`, absent; within each, the optional space
present before absent). -/
def articleVariants : List (List Char) :=
  [chars "the ", chars "the", chars "an ", chars "an", chars "a ", chars "a",
   chars " ", []]

/-- Prefixes of `r'named (after|for) ([^.]+)\.'` (line 41). -/
def namedCands : List (List Char) := [chars "named after ", chars "named for "]

/-- Prefixes of `r'commemorate[s]? (?:the|an?)? ?([^.]+)\.'` (line 42). -/
def commemorateCands : List (List Char) :=
  articleVariants.map (fun a => chars "commemorates " ++ a) ++
  articleVariants.map (fun a => chars "commemorate " ++ a)

/-- Prefixes of `r'in honor of ([^.]+)\.'` (line 43). -/
def honorCands : List (List Char) := [chars "in honor of "]

/-- Prefixes of `r'celebrate[s]? (?:the|an?)? ?([^.]+)\.'` (line 44). -/
def celebrateCands : List (List Char) :=
  articleVariants.map (fun a => chars "celebrates " ++ a) ++
  articleVariants.map (fun a => chars "celebrate " ++ a)

/-- Prefixes of `r'recognize[s]? ([^.]+)\.'` (line 45). -/
def recognizeCands : List (List Char) :=
  [chars "recognizes ", chars "recognize "]

/-- `re.search` of the first context pattern; `match.group(2)` is the
captured context (the source picks group 2 when the pattern has two
groups, and group 1, the `after|for` word, is not returned). -/
def searchNamed (content : List Char) : Option (List Char) :=
  searchTemplateAux namedCands content

/-- `re.search` of the second context pattern, returning its group. -/
def searchCommemorate (content : List Char) : Option (List Char) :=
  searchTemplateAux commemorateCands content

/-- `re.search` of the third context pattern, returning its group. -/
def searchHonor (content : List Char) : Option (List Char) :=
  searchTemplateAux honorCands content

/-- `re.search` of the fourth context pattern, returning its group. -/
def searchCelebrate (content : List Char) : Option (List Char) :=
  searchTemplateAux celebrateCands content

/-- `re.search` of the fifth context pattern, returning its group. -/
def searchRecognize (content : List Char) : Option (List Char) :=
  searchTemplateAux recognizeCands content

/-- The context-extraction loop of src/map_eras.py lines 61-65: the five
context patterns are tried in order and the loop breaks at the first one
that matches anywhere in the text. -/
def extract_context (content : List Char) : Option (List Char) :=
  match searchNamed content with
  | some g => some g
  | none =>
    match searchCommemorate content with
    | some g => some g
    | none =>
      match searchHonor content with
      | some g => some g
      | none =>
        match searchCelebrate content with
        | some g => some g
        | none => searchRecognize content

/-- Outcome of one `wikipedia.page(query)` call, as the source distinguishes
outcomes: a page with text content, a `DisambiguationError` carrying the
candidate titles `e.options`, or any other exception (network failure,
`PageError`, ...), which line 74 of the source handles uniformly. -/
inductive WikiPageResult where
  | found (content : List Char)
  | disambiguationError (options : List (List Char))
  | otherException
deriving DecidableEq

/-- A deterministic knowledge-source collaborator: query string to outcome. -/
def WikiOracle : Type := List Char → WikiPageResult

/-- The query string `f"{street_name}, {city_name}"` of line 48. -/
def mkQuery (street city : List Char) : List Char :=
  street ++ ',' :: ' ' :: city

/-- Source `extract_era_and_context_from_wikipedia` (lines 33-76), with the
recursion made structural on the remaining disambiguation budget `r`
(`r = 3 - recursion_count`; the guard `recursion_count < 3` of line 68 is
exactly `r > 0`).  A `DisambiguationError` with a nonempty option list and
remaining budget re-issues the lookup with `e.options[0]` as the new street
name and the same city (line 70); with an empty option list, `e.options[0]`
raises `IndexError` inside the `except` handler, which the function does not
catch, modelled as `Except.error ()`.  Every other exception is caught by
line 74 and turned into the pair `(None, None)`. -/
def extract_wiki_aux (oracle : WikiOracle) :
    Nat → List Char → List Char →
    Except Unit (Option (List Char) × Option (List Char))
  | r, street_name, city_name =>
    match oracle (mkQuery street_name city_name) with
    | .found content => .ok (extract_era content, extract_context content)
    | .disambiguationError options =>
      match r with
      | 0 => .ok (none, none)
      | r' + 1 =>
        match options with
        | [] => .error ()
        | t :: _ => extract_wiki_aux oracle r' t city_name
    | .otherException => .ok (none, none)

/-- Source `extract_era_and_context_from_wikipedia` at an explicit
`recursion_count` (default 0 at every call site). -/
def extract_era_and_context_from_wikipedia (oracle : WikiOracle)
    (street_name city_name : List Char) (recursion_count : Nat) :
    Except Unit (Option (List Char) × Option (List Char)) :=
  extract_wiki_aux oracle (3 - recursion_count) street_name city_name

/-- Number of `wikipedia.page` calls made by
`extract_era_and_context_from_wikipedia` at remaining budget `r`. -/
def extract_wiki_calls_aux (oracle : WikiOracle) :
    Nat → List Char → List Char → Nat
  | r, street_name, city_name =>
    match oracle (mkQuery street_name city_name) with
    | .disambiguationError options =>
      match r with
      | 0 => 1
      | r' + 1 =>
        match options with
        | [] => 1
        | t :: _ => 1 + extract_wiki_calls_aux oracle r' t city_name
    | _ => 1

/-- Number of `wikipedia.page` calls made by the single-lookup function at a
given `recursion_count`. -/
def extract_wiki_calls (oracle : WikiOracle)
    (street_name city_name : List Char) (recursion_count : Nat) : Nat :=
  extract_wiki_calls_aux oracle (3 - recursion_count) street_name city_name

/-- Source `extract_era_and_context_from_wikipedia_retry` (lines 78-98),
structural on the remaining retry budget `r = max_retries - retry_count`
(default `max_retries = 3`; the recursive call of line 95 keeps the default,
so the guard `retry_count < max_retries` of line 93 is exactly `r > 0`).
Each attempt first sleeps `random.uniform(0.1, 0.5)` (line 82) and then runs
the single-lookup function with `recursion_count = 0`.  The single-lookup
function catches `wikipedia.exceptions.DisambiguationError` itself (line
67), so the handler of line 85 is unreachable and the only exception the
wrapper can see is the `IndexError` escaping an empty-options
disambiguation, handled by the generic `except Exception` of line 92, which
retries the same street and city. -/
def extract_retry_aux (oracle : WikiOracle) :
    Nat → List Char → List Char → Option (List Char) × Option (List Char)
  | 0, street_name, city_name =>
    match extract_era_and_context_from_wikipedia oracle street_name city_name 0 with
    | .ok res => res
    | .error _ => (none, none)
  | r + 1, street_name, city_name =>
    match extract_era_and_context_from_wikipedia oracle street_name city_name 0 with
    | .ok res => res
    | .error _ => extract_retry_aux oracle r street_name city_name

/-- Source `extract_era_and_context_from_wikipedia_retry` at an explicit
`retry_count` (default 0 at every call site) and `max_retries = 3`. -/
def extract_era_and_context_from_wikipedia_retry (oracle : WikiOracle)
    (street_name city_name : List Char) (retry_count : Nat) :
    Option (List Char) × Option (List Char) :=
  extract_retry_aux oracle (3 - retry_count) street_name city_name

/-- Number of attempts the retry wrapper makes at remaining budget `r`
(each attempt is one sleep of `random.uniform(0.1, 0.5)` followed by one run
of the single-lookup function). -/
def retry_attempts_aux (oracle : WikiOracle) :
    Nat → List Char → List Char → Nat
  | 0, street_name, city_name =>
    match extract_era_and_context_from_wikipedia oracle street_name city_name 0 with
    | .ok _ => 1
    | .error _ => 1
  | r + 1, street_name, city_name =>
    match extract_era_and_context_from_wikipedia oracle street_name city_name 0 with
    | .ok _ => 1
    | .error _ => 1 + retry_attempts_aux oracle r street_name city_name

/-- Number of attempts the retry wrapper makes at `retry_count = 0`. -/
def retry_attempts (oracle : WikiOracle)
    (street_name city_name : List Char) : Nat :=
  retry_attempts_aux oracle 3 street_name city_name

/-- Final per-street entity: the value stored in `street_eras`
(lines 104-106): `{'era': century_era, 'context': context}`. -/
structure StreetRecord where
  era : String
  context : Option (List Char)
deriving DecidableEq

/-- Source `process_street` (lines 101-107).  `if era:` is Python
truthiness: `era` must be a nonempty string.  `century_to_era(era)` raises
`AttributeError` when `era` contains no digit (modelled as `Except.error`);
this is unreachable for eras produced by the extractor, whose captures
always consist of digits or a `year_to_century` rendering. -/
def process_street (oracle : WikiOracle) (street city_name : List Char) :
    Except Unit (Option (List Char × StreetRecord)) :=
  match extract_era_and_context_from_wikipedia_retry oracle street city_name 0 with
  | (some era, context) =>
    if era.isEmpty then .ok none
    else
      match century_to_era era with
      | none => .error ()
      | some century_era => .ok (some (street, ⟨century_era, context⟩))
  | (none, _) => .ok none

/-- Result-map insertion `street_eras[street] = data`: later writes shadow
earlier ones, as in a Python dict. -/
def insertKV (m : List (List Char × StreetRecord)) (k : List Char)
    (v : StreetRecord) : List (List Char × StreetRecord) :=
  (k, v) :: m

/-- Dict lookup on the result map (the newest write for a key wins). -/
def mapLookup : List (List Char × StreetRecord) → List Char → Option StreetRecord
  | [], _ => none
  | (k, v) :: m, s => if s = k then some v else mapLookup m s

/-- The collection loop of src/map_eras.py lines 131-136, over the futures
in a given completion order: each completed `process_street` result that is
not `None` is stored under its street key; a future whose call raised
re-raises from `future.result()` and aborts the batch (`Except.error`). -/
def collectResults (oracle : WikiOracle) (city_name : List Char) :
    List (List Char) → List (List Char × StreetRecord) →
    Except Unit (List (List Char × StreetRecord))
  | [], m => .ok m
  | street :: rest, m =>
    match process_street oracle street city_name with
    | .error e => .error e
    | .ok none => collectResults oracle city_name rest m
    | .ok (some (k, v)) => collectResults oracle city_name rest (insertKV m k v)

/-- The truncation `street_names[:limit]` of line 122: the streets actually
submitted to the pool. -/
def submittedStreets (street_names : List (List Char)) (limit : Nat) :
    List (List Char) :=
  street_names.take limit

/-- Source `extract_street_eras_and_context_parallel_progressbar`
(lines 109-139) from the point where the street-name list exists: the
retrieval of street names from the OSMnx graph (lines 112-119) is the
street-name supplier collaborator, so the list is a parameter here.  The
names are truncated to `limit`, each street is submitted to the pool, and
results are collected into the dict as futures complete.  `max_workers`
only sizes the thread pool; it does not appear in the data path, and the
completion order of `as_completed` is modelled by `collectResults` taken
over an arbitrary permutation of the submitted list (see the theorems on
order independence). -/
def extract_street_eras_and_context_parallel_progressbar (oracle : WikiOracle)
    (city_name : List Char) (street_names : List (List Char))
    (max_workers : Nat) (limit : Nat) :
    Except Unit (List (List Char × StreetRecord)) :=
  let _ := max_workers
  collectResults oracle city_name (submittedStreets street_names limit) []

/-- The per-street record that ends up in the mapping, when the processing
of the street succeeded. -/
def recordValue (oracle : WikiOracle) (city s : List Char) : Option StreetRecord :=
  match process_street oracle s city with
  | .ok (some (_, v)) => some v
  | _ => none

/-- Fixture: a knowledge source for which every lookup fails with a
transient error (network failure, timeout, ...). -/
def oracleTransient : WikiOracle := fun _ => .otherException

/-- Fixture: a knowledge source for which every lookup is ambiguous with
the same single candidate title. -/
def oracleAmbig : WikiOracle := fun _ => .disambiguationError [chars "X"]

/-- Fixture: a deterministic knowledge source that knows one street. -/
def oracleA : WikiOracle := fun q =>
  if q = chars "Hi, Ox" then .found (chars "Built in the 3rd century.")
  else .otherException

/-- Fixture: the record oracleA produces for street "Hi". -/
def recA : StreetRecord := ⟨"ancient", none⟩

/-- Fixture: a deterministic knowledge source that knows two streets. -/
def oracleB : WikiOracle := fun q =>
  if q = chars "Hi, Ox" then .found (chars "Built in the 3rd century.")
  else if q = chars "Lo, Ox" then .found (chars "Rebuilt in 1850 entirely.")
  else .otherException

/-- Fixture: the record oracleB produces for street "Lo". -/
def recB : StreetRecord := ⟨"modern", none⟩

/-- No character in the case table is a digit, on either side. -/
theorem upperLower_no_digit :
    ∀ p ∈ upperLower, p.1.isDigit = false ∧ p.2.isDigit = false := by decide

/-- Lowering a character does not change whether it is a digit. -/
theorem lowerChar_isDigit (c : Char) : (lowerChar c).isDigit = c.isDigit := by
  unfold lowerChar
  cases hf : upperLower.find? (fun p => p.1 == c) with
  | none => rfl
  | some p =>
    have hmem := List.mem_of_find?_eq_some hf
    have hc : p.1 = c := by simpa using List.find?_some hf
    have hnd := upperLower_no_digit p hmem
    rw [hnd.2, ← hc, hnd.1]

/-- Lowering fixes digits. -/
theorem lowerChar_digit_self (c : Char) (h : c.isDigit = true) :
    lowerChar c = c := by
  unfold lowerChar
  cases hf : upperLower.find? (fun p => p.1 == c) with
  | none => rfl
  | some p =>
    have hmem := List.mem_of_find?_eq_some hf
    have hc : p.1 = c := by simpa using List.find?_some hf
    have hnd := (upperLower_no_digit p hmem).1
    rw [hc, h] at hnd
    cases hnd

/-- If the lowering of `c` is a digit `d`, then `c` is literally `d`. -/
theorem lowerChar_eq_digit (c d : Char) (hd : d.isDigit = true)
    (h : lowerChar c = d) : c = d := by
  have hc : c.isDigit = true := by rw [← lowerChar_isDigit, h, hd]
  rw [← lowerChar_digit_self c hc, h]

/-- If the lowering of `c` is a non-digit, so is `c`. -/
theorem lowerChar_nonDigit (c d : Char) (hd : d.isDigit = false)
    (h : lowerChar c = d) : c.isDigit = false := by
  rw [← lowerChar_isDigit, h, hd]

/-- A decimal digit below 10 renders to a digit character. -/
theorem digitChar_isDigit (n : Nat) (h : n < 10) :
    (digitChar n).isDigit = true := by
  interval_cases n <;> decide

/-- Decimal rendering is nonempty and starts with a digit. -/
theorem natDigitsAux_head :
    ∀ fuel n, ∃ d ds, natDigitsAux fuel n = d :: ds ∧ d.isDigit = true := by
  intro fuel
  induction fuel with
  | zero =>
    intro n
    exact ⟨digitChar (n % 10), [], rfl,
      digitChar_isDigit _ (Nat.mod_lt _ (by norm_num))⟩
  | succ fuel ih =>
    intro n
    by_cases h : n < 10
    · exact ⟨digitChar n, [], by simp [natDigitsAux, h], digitChar_isDigit _ h⟩
    · obtain ⟨d, ds, hds, hd⟩ := ih (n / 10)
      exact ⟨d, ds ++ [digitChar (n % 10)], by simp [natDigitsAux, h, hds], hd⟩

/-- An integer rendering always contains a leading digit run, so the parse
inside `century_to_era` cannot fail on a `year_to_century` output. -/
theorem firstDigitRun_intChars (i : Int) (rest : List Char) :
    ∃ g, firstDigitRun (intChars i ++ rest) = some g := by
  unfold intChars natDigits
  split_ifs with h
  · obtain ⟨d, ds, hds, hd⟩ := natDigitsAux_head i.natAbs i.natAbs
    exact ⟨d :: (ds ++ rest).takeWhile Char.isDigit,
      by simp [hds, firstDigitRun, hd]⟩
  · obtain ⟨d, ds, hds, hd⟩ := natDigitsAux_head i.toNat i.toNat
    exact ⟨d :: (ds ++ rest).takeWhile Char.isDigit,
      by simp [hds, firstDigitRun, hd]⟩

/-- Every label the range table can produce is in the closed era set. -/
theorem rangeLookup_mem (n : Nat) (e : String)
    (h : rangeLookup n era_mapping = some e) : e ∈ eraLabelSet := by
  simp only [rangeLookup, era_mapping] at h
  split_ifs at h <;> cases h <;> decide

/-- The range table never produces the label "contemporary". -/
theorem rangeLookup_ne_contemporary (n : Nat) (e : String)
    (h : rangeLookup n era_mapping = some e) : e ≠ "contemporary" := by
  simp only [rangeLookup, era_mapping] at h
  split_ifs at h <;> cases h <;> decide

/-- Range table at 1-5. -/
theorem rangeLookup_ancient (n : Nat) (h1 : 1 ≤ n) (h2 : n ≤ 5) :
    rangeLookup n era_mapping = some "ancient" := by
  simp only [rangeLookup, era_mapping]
  rw [if_pos (by omega)]

/-- Range table at 6-15. -/
theorem rangeLookup_medieval (n : Nat) (h1 : 6 ≤ n) (h2 : n ≤ 15) :
    rangeLookup n era_mapping = some "medieval" := by
  simp only [rangeLookup, era_mapping]
  rw [if_neg (by omega), if_pos (by omega)]

/-- Range table at 16-18. -/
theorem rangeLookup_earlyModern (n : Nat) (h1 : 16 ≤ n) (h2 : n ≤ 18) :
    rangeLookup n era_mapping = some "early modern" := by
  simp only [rangeLookup, era_mapping]
  rw [if_neg (by omega), if_neg (by omega), if_pos (by omega)]

/-- Range table at 19-20. -/
theorem rangeLookup_modern (n : Nat) (h1 : 19 ≤ n) (h2 : n ≤ 20) :
    rangeLookup n era_mapping = some "modern" := by
  simp only [rangeLookup, era_mapping]
  rw [if_neg (by omega), if_neg (by omega), if_neg (by omega), if_pos (by omega)]

/-- Range table misses outside 1-20. -/
theorem rangeLookup_none (n : Nat) (h : n = 0 ∨ 21 ≤ n) :
    rangeLookup n era_mapping = none := by
  simp only [rangeLookup, era_mapping]
  rw [if_neg (by omega), if_neg (by omega), if_neg (by omega), if_neg (by omega)]

/-- With a known digit run, `century_to_era` is the range table with the
20th-prefix fallback. -/
theorem century_to_era_eq (s ds : List Char)
    (hf : firstDigitRun s = some ds) :
    century_to_era s =
      match rangeLookup (digitsToNat ds) era_mapping with
      | some era => some era
      | none =>
        some (if startsWithL th20 (toLowerL s) then "contemporary"
              else "unknown") := by
  unfold century_to_era
  rw [hf]

/-- With no digit in the input, `century_to_era` fails (Python raises). -/
theorem century_to_era_none (s : List Char)
    (hf : firstDigitRun s = none) : century_to_era s = none := by
  unfold century_to_era
  rw [hf]

/-- A string whose lowering starts with "20th" starts with the literal
digits 2, 0 followed by a non-digit. -/
theorem startsWith_th20_shape (s : List Char)
    (h : startsWithL th20 (toLowerL s) = true) :
    ∃ c3 rest, s = '2' :: '0' :: c3 :: rest ∧ c3.isDigit = false := by
  cases s with
  | nil => simp [toLowerL, th20, startsWithL] at h
  | cons a s1 =>
    cases s1 with
    | nil => simp [toLowerL, th20, startsWithL] at h
    | cons b s2 =>
      cases s2 with
      | nil => simp [toLowerL, th20, startsWithL] at h
      | cons c3 s3 =>
        simp only [toLowerL, List.map_cons, th20, startsWithL,
          Bool.and_eq_true, beq_iff_eq] at h
        obtain ⟨h1, h2, h3, _⟩ := h
        have ha : a = '2' := lowerChar_eq_digit a '2' (by decide) h1.symm
        have hb : b = '0' := lowerChar_eq_digit b '0' (by decide) h2.symm
        have hc3 : c3.isDigit = false :=
          lowerChar_nonDigit c3 't' (by decide) h3.symm
        exact ⟨c3, s3, by rw [ha, hb], hc3⟩

/-- Any input whose lowering starts with "20th" parses to century 20 and is
classified "modern": the "contemporary" fallback of line 31 is dead code. -/
theorem era_of_th20 (s : List Char)
    (h : startsWithL th20 (toLowerL s) = true) :
    century_to_era s = some "modern" := by
  obtain ⟨c3, rest, rfl, hc3⟩ := startsWith_th20_shape s h
  have d2 : ('2' : Char).isDigit = true := by decide
  have d0 : ('0' : Char).isDigit = true := by decide
  have hf : firstDigitRun ('2' :: '0' :: c3 :: rest) = some ['2', '0'] := by
    simp [firstDigitRun, List.takeWhile, d2, d0, hc3]
  rw [century_to_era_eq _ _ hf]
  rfl

/-- The "contemporary" label can only arise from the 20th-prefix test. -/
theorem era_contemporary_prefix (s : List Char)
    (h : century_to_era s = some "contemporary") :
    startsWithL th20 (toLowerL s) = true := by
  rcases hf : firstDigitRun s with _ | ds
  · rw [century_to_era_none s hf] at h
    cases h
  · rw [century_to_era_eq s ds hf] at h
    rcases hr : rangeLookup (digitsToNat ds) era_mapping with _ | e
    · simp only [hr] at h
      by_cases hs : startsWithL th20 (toLowerL s) = true
      · exact hs
      · rw [if_neg hs] at h
        exact absurd h (by decide)
    · simp only [hr] at h
      have he : e = "contemporary" := by injection h
      exact absurd he (rangeLookup_ne_contemporary _ _ hr)

/-- Claim C4: eraOf parses the leading integer of the century string and
maps it by the inclusive ranges 1-5 ancient, 6-15 medieval, 16-18 early
modern, 19-20 modern; for every year the composition
`century_to_era (year_to_century y)` lands in the closed era-label set, and
in particular years 1, 600 and 1899 classify as ancient, medieval and
modern. -/
theorem claim_C4 :
    (∀ s ds, firstDigitRun s = some ds →
      (1 ≤ digitsToNat ds → digitsToNat ds ≤ 5 →
        century_to_era s = some "ancient") ∧
      (6 ≤ digitsToNat ds → digitsToNat ds ≤ 15 →
        century_to_era s = some "medieval") ∧
      (16 ≤ digitsToNat ds → digitsToNat ds ≤ 18 →
        century_to_era s = some "early modern") ∧
      (19 ≤ digitsToNat ds → digitsToNat ds ≤ 20 →
        century_to_era s = some "modern")) ∧
    (∀ y : Int, ∃ l, century_to_era (year_to_century y) = some l ∧
      l ∈ eraLabelSet) ∧
    century_to_era (year_to_century 1) = some "ancient" ∧
    century_to_era (year_to_century 600) = some "medieval" ∧
    century_to_era (year_to_century 1899) = some "modern" := by
  refine ⟨?_, ?_, by decide, by decide, by decide⟩
  · intro s ds hf
    refine ⟨fun h1 h2 => ?_, fun h1 h2 => ?_, fun h1 h2 => ?_,
      fun h1 h2 => ?_⟩
    · rw [century_to_era_eq s ds hf, rangeLookup_ancient _ h1 h2]
    · rw [century_to_era_eq s ds hf, rangeLookup_medieval _ h1 h2]
    · rw [century_to_era_eq s ds hf, rangeLookup_earlyModern _ h1 h2]
    · rw [century_to_era_eq s ds hf, rangeLookup_modern _ h1 h2]
  · intro y
    have hys : year_to_century y =
        intChars ((y - 1).fdiv 100 + 1) ++
          (ordinalSuffix ((y - 1).fdiv 100 + 1) ++
            [' ', 'c', 'e', 'n', 't', 'u', 'r', 'y']) := by
      simp [year_to_century, List.append_assoc]
    obtain ⟨g, hg⟩ := firstDigitRun_intChars ((y - 1).fdiv 100 + 1)
      (ordinalSuffix ((y - 1).fdiv 100 + 1) ++
        [' ', 'c', 'e', 'n', 't', 'u', 'r', 'y'])
    rw [hys]
    rcases hr : rangeLookup (digitsToNat g) era_mapping with _ | e
    · by_cases hs : startsWithL th20 (toLowerL
          (intChars ((y - 1).fdiv 100 + 1) ++
            (ordinalSuffix ((y - 1).fdiv 100 + 1) ++
              [' ', 'c', 'e', 'n', 't', 'u', 'r', 'y']))) = true
      · exact ⟨"modern", era_of_th20 _ hs, by decide⟩
      · refine ⟨"unknown", ?_, by decide⟩
        rw [century_to_era_eq _ g hg, hr]
        simp [hs]
    · exact ⟨e, by rw [century_to_era_eq _ g hg, hr],
        rangeLookup_mem _ _ hr⟩

/-- Witness for claim C4 at the concrete label "3rd century". -/
theorem claim_C4_witness :
    century_to_era (chars "3rd century") = some "ancient" :=
  ((claim_C4.1 (chars "3rd century") ['3'] (by decide)).1 (by decide)
    (by decide))

/-- Counterexample for claim C5: the label "20th century" (the label
produced for year 1901) classifies as "modern", not "contemporary". -/
theorem claim_C5_counterexample :
    century_to_era (chars "20th century") = some "modern" ∧
    century_to_era (year_to_century 1901) = some "modern" ∧
    some "modern" ≠ some "contemporary" :=
  ⟨by decide, by decide, by decide⟩

/-- Claim C5 amended: `century_to_era` never returns "contemporary".  Any
label beginning (case-insensitively) with "20th" parses to century 20 and
is caught by the modern range 19-20, so the string-level fallback of line
31 is unreachable; "contemporary" could only arise from that fallback; and
a century outside 1-20 whose label does not begin with "20th" maps to
"unknown". -/
theorem claim_C5_amended :
    (∀ s, startsWithL th20 (toLowerL s) = true →
      century_to_era s = some "modern") ∧
    (∀ s, century_to_era s = some "contemporary" →
      startsWithL th20 (toLowerL s) = true) ∧
    (∀ s, century_to_era s ≠ some "contemporary") ∧
    (∀ s ds, firstDigitRun s = some ds →
      (digitsToNat ds = 0 ∨ 21 ≤ digitsToNat ds) →
      startsWithL th20 (toLowerL s) = false →
      century_to_era s = some "unknown") := by
  refine ⟨era_of_th20, era_contemporary_prefix, ?_, ?_⟩
  · intro s h
    have h1 := era_contemporary_prefix s h
    have h2 := era_of_th20 s h1
    rw [h] at h2
    exact absurd h2 (by decide)
  · intro s ds hf hout hsf
    rw [century_to_era_eq s ds hf, rangeLookup_none _ hout]
    simp [hsf]

/-- Witness for the amended claim C5. -/
theorem claim_C5_witness :
    century_to_era (chars "20th Century Fox Street") = some "modern" :=
  claim_C5_amended.1 (chars "20th Century Fox Street") (by decide)

/-- Counterexample for claim C6: year 2001 is century 21, and the source
renders it "21th century", not the English ordinal "21st century" the claim
requires. -/
theorem claim_C6_counterexample :
    year_to_century 2001 = chars "21th century" ∧
    year_to_century 2001 ≠ chars "21st century" :=
  ⟨by decide, by decide⟩

/-- Claim C6 amended: the century is ((year-1) div 100) + 1 and the suffix
is chosen by the century number as a whole, not by its last digit: st/nd/rd
exactly for centuries 1, 2 and 3, and "th" for every century ≥ 4 -
including 21, which renders as "21th century" - so the teen centuries
11-13 do get "th". -/
theorem claim_C6_amended :
    (∀ y : Int, 4 ≤ (y - 1).fdiv 100 + 1 →
      year_to_century y =
        intChars ((y - 1).fdiv 100 + 1) ++ chars "th century") ∧
    year_to_century 1 = chars "1st century" ∧
    year_to_century 101 = chars "2nd century" ∧
    year_to_century 201 = chars "3rd century" ∧
    year_to_century 1001 = chars "11th century" ∧
    year_to_century 1101 = chars "12th century" ∧
    year_to_century 1201 = chars "13th century" ∧
    year_to_century 2001 = chars "21th century" := by
  refine ⟨?_, by decide, by decide, by decide, by decide, by decide,
    by decide, by decide⟩
  intro y h
  have hsfx : ordinalSuffix ((y - 1).fdiv 100 + 1) = ['t', 'h'] := by
    simp only [ordinalSuffix]
    rw [if_neg (by omega : ¬((y - 1).fdiv 100 + 1 < 4))]
    norm_num
  simp only [year_to_century, hsfx, List.append_assoc]
  congr 1

/-- Witness for the amended claim C6 at year 2024. -/
theorem claim_C6_witness :
    year_to_century 2024 =
      intChars ((2024 - 1 : Int).fdiv 100 + 1) ++ chars "th century" :=
  claim_C6_amended.1 2024 (by decide)

/-- A century-pattern attempt returns nothing, one digit, or two digits. -/
theorem tryCenturyAt_cases (c : Char) (rest : List Char) :
    tryCenturyAt c rest = none ∨ tryCenturyAt c rest = some [c] ∨
      ∃ d, tryCenturyAt c rest = some [c, d] := by
  rcases rest with _ | ⟨d, rest2⟩
  · exact .inl rfl
  · simp only [tryCenturyAt]
    split_ifs <;>
      first
        | exact .inl rfl
        | exact .inr (.inl rfl)
        | exact .inr (.inr ⟨d, rfl⟩)

/-- A century-pattern group has one or two characters. -/
theorem tryCenturyAt_len (c : Char) (rest g : List Char)
    (h : tryCenturyAt c rest = some g) : g.length ≤ 2 := by
  rcases tryCenturyAt_cases c rest with hc | hc | ⟨d, hc⟩ <;>
    rw [hc] at h <;> cases h <;> simp

/-- A century-pattern search result has one or two characters. -/
theorem searchCenturyAux_len :
    ∀ (content : List Char) (prev : Option Char) (g : List Char),
      searchCenturyAux prev content = some g → g.length ≤ 2 := by
  intro content
  induction content with
  | nil => intro prev g h; simp [searchCenturyAux] at h
  | cons c rest ih =>
    intro prev g h
    unfold searchCenturyAux at h
    split_ifs at h
    · rcases ht : tryCenturyAt c rest with _ | g'
      · rw [ht] at h
        simp at h
        exact ih _ _ h
      · rw [ht] at h
        simp at h
        exact h ▸ tryCenturyAt_len c rest g' ht
    · exact ih _ _ h

/-- A four-digit match is four nonempty digits. -/
theorem year4At_shape (l g : List Char) (h : year4At l = some g) :
    g.length = 4 ∧ g ≠ [] ∧ g.all Char.isDigit = true := by
  rcases l with _ | ⟨a, _ | ⟨b, _ | ⟨c, _ | ⟨d, rest⟩⟩⟩⟩
  · simp [year4At] at h
  · simp [year4At] at h
  · simp [year4At] at h
  · simp [year4At] at h
  · simp only [year4At] at h
    split_ifs at h with hcond
    cases h
    simp only [Bool.and_eq_true] at hcond
    refine ⟨rfl, by simp, ?_⟩
    simp [List.all_cons, hcond.1.1.1.1, hcond.1.1.1.2, hcond.1.1.2,
      hcond.1.2]

/-- A four-digit search result is four nonempty digits. -/
theorem searchYear4Aux_shape :
    ∀ (content : List Char) (prev : Option Char) (g : List Char),
      searchYear4Aux prev content = some g →
      g.length = 4 ∧ g ≠ [] ∧ g.all Char.isDigit = true := by
  intro content
  induction content with
  | nil => intro prev g h; simp [searchYear4Aux] at h
  | cons c rest ih =>
    intro prev g h
    unfold searchYear4Aux at h
    split_ifs at h
    · rcases ht : year4At (c :: rest) with _ | g'
      · rw [ht] at h
        simp at h
        exact ih _ _ h
      · rw [ht] at h
        simp at h
        exact h ▸ year4At_shape (c :: rest) g' ht
    · exact ih _ _ h

/-- Era extraction when the century pattern matched. -/
theorem extract_era_century (content g : List Char)
    (h : searchCentury content = some g) :
    extract_era content =
      some (if (g ≠ [] ∧ g.all Char.isDigit) ∧ g.length = 4
            then year_to_century (digitsToNat g) else g) := by
  unfold extract_era
  rw [h]

/-- Era extraction when only the four-digit pattern matched. -/
theorem extract_era_year (content y : List Char)
    (hc : searchCentury content = none) (hy : searchYear4 content = some y) :
    extract_era content =
      some (if (y ≠ [] ∧ y.all Char.isDigit) ∧ y.length = 4
            then year_to_century (digitsToNat y) else y) := by
  unfold extract_era
  rw [hc, hy]

/-- Claim C7: the era extractor tries the century pattern before the bare
four-digit pattern and stops at the first match: whenever the century
pattern matches, its captured century number is the era token even if a
four-digit number is present, and only when the century pattern misses is a
four-digit match interpreted as a year and converted through
`year_to_century`. -/
theorem claim_C7 :
    ∀ (content g y4 : List Char),
      (searchCentury content = some g → searchYear4 content = some y4 →
        extract_era content = some g) ∧
      (searchCentury content = none → searchYear4 content = some y4 →
        extract_era content = some (year_to_century (digitsToNat y4))) := by
  intro content g y4
  constructor
  · intro hc hy
    rw [extract_era_century content g hc, if_neg]
    intro hcond
    have hlen := searchCenturyAux_len content none g hc
    omega
  · intro hc hy
    obtain ⟨h4, hne, hall⟩ := searchYear4Aux_shape content none y4 hy
    rw [extract_era_year content y4 hc hy, if_pos ⟨⟨hne, hall⟩, h4⟩]

/-- Witness for claim C7 on a text containing both a century phrase and an
unrelated four-digit number. -/
theorem claim_C7_witness :
    extract_era (chars "Built in the 12th century, about 1850.") =
      some ['1', '2'] :=
  (claim_C7 (chars "Built in the 12th century, about 1850.") ['1', '2']
    ['1', '8', '5', '0']).1 (by decide) (by decide)

/-- Claim C8: the context extractor tries the five templates in fixed order
and keeps only the first match, so a "named after X." capture wins over an
"in honor of Y." capture, and "in honor of" can only capture when the two
templates before it missed. -/
theorem claim_C8 :
    ∀ (content x yv : List Char),
      (searchNamed content = some x → extract_context content = some x) ∧
      (searchNamed content = some x → searchHonor content = some yv →
        extract_context content = some x) ∧
      (searchNamed content = none → searchCommemorate content = none →
        searchHonor content = some x → extract_context content = some x) := by
  intro content x yv
  refine ⟨?_, ?_, ?_⟩
  · intro h
    unfold extract_context
    rw [h]
  · intro h _
    unfold extract_context
    rw [h]
  · intro h1 h2 h3
    unfold extract_context
    rw [h1, h2, h3]

/-- Witness for claim C8 on a text matching both the "named after" and the
"in honor of" templates. -/
theorem claim_C8_witness :
    extract_context (chars "It was named after Ada. Built in honor of Bob.") =
      some (chars "Ada") :=
  (claim_C8 (chars "It was named after Ada. Built in honor of Bob.")
    (chars "Ada") (chars "Bob")).2.1 (by decide) (by decide)

/-- One disambiguation step of the single-lookup function: an ambiguous
result with a first candidate `t` re-issues the lookup with `t` and the
same city, consuming one unit of depth budget. -/
theorem extract_wiki_aux_step (oracle : WikiOracle) (r : Nat)
    (s c t : List Char) (ts : List (List Char))
    (h : oracle (mkQuery s c) = .disambiguationError (t :: ts)) :
    extract_wiki_aux oracle (r + 1) s c = extract_wiki_aux oracle r t c := by
  conv_lhs => unfold extract_wiki_aux
  rw [h]

/-- Under an always-ambiguous oracle with nonempty candidate lists, the
single-lookup function always terminates with the empty pair. -/
theorem wiki_aux_allDisambig (oracle : WikiOracle)
    (h : ∀ q, ∃ t ts, oracle q = .disambiguationError (t :: ts)) :
    ∀ (r : Nat) (s c : List Char),
      extract_wiki_aux oracle r s c = .ok (none, none) := by
  intro r
  induction r with
  | zero =>
    intro s c
    obtain ⟨t, ts, hq⟩ := h (mkQuery s c)
    unfold extract_wiki_aux
    rw [hq]
  | succ r ih =>
    intro s c
    obtain ⟨t, ts, hq⟩ := h (mkQuery s c)
    rw [extract_wiki_aux_step oracle r s c t ts hq]
    exact ih t c

/-- Under an always-ambiguous oracle with nonempty candidate lists, the
single-lookup function performs exactly budget-plus-one page calls. -/
theorem wiki_calls_aux_allDisambig (oracle : WikiOracle)
    (h : ∀ q, ∃ t ts, oracle q = .disambiguationError (t :: ts)) :
    ∀ (r : Nat) (s c : List Char),
      extract_wiki_calls_aux oracle r s c = r + 1 := by
  intro r
  induction r with
  | zero =>
    intro s c
    obtain ⟨t, ts, hq⟩ := h (mkQuery s c)
    unfold extract_wiki_calls_aux
    rw [hq]
  | succ r ih =>
    intro s c
    obtain ⟨t, ts, hq⟩ := h (mkQuery s c)
    unfold extract_wiki_calls_aux
    rw [hq]
    show 1 + extract_wiki_calls_aux oracle r t c = r + 1 + 1
    rw [ih t c]
    omega

/-- When the single attempt returns normally, the retry wrapper returns its
result unchanged, for any remaining retry budget. -/
theorem extract_retry_aux_ok (oracle : WikiOracle) (r : Nat)
    (s c : List Char) (res : Option (List Char) × Option (List Char))
    (h : extract_era_and_context_from_wikipedia oracle s c 0 = .ok res) :
    extract_retry_aux oracle r s c = res := by
  cases r with
  | zero =>
    unfold extract_retry_aux
    rw [h]
  | succ r' =>
    unfold extract_retry_aux
    rw [h]

/-- When the single attempt returns normally, the wrapper makes exactly one
attempt, for any remaining retry budget. -/
theorem retry_attempts_aux_ok (oracle : WikiOracle) (r : Nat)
    (s c : List Char) (res : Option (List Char) × Option (List Char))
    (h : extract_era_and_context_from_wikipedia oracle s c 0 = .ok res) :
    retry_attempts_aux oracle r s c = 1 := by
  cases r with
  | zero =>
    unfold retry_attempts_aux
    rw [h]
  | succ r' =>
    unfold retry_attempts_aux
    rw [h]

/-- Claim C3: on an ambiguous title the resolver re-issues the lookup with
the first candidate as the new title and the same city; the recursion depth
is capped at 3, and a street whose lookup is always ambiguous terminates
with no record after exactly 4 page calls (the initial one plus the 3
capped recursions). -/
theorem claim_C3 :
    (∀ (oracle : WikiOracle) (street city t : List Char)
        (ts : List (List Char)) (k : Nat),
      oracle (mkQuery street city) = .disambiguationError (t :: ts) →
      k < 3 →
      extract_era_and_context_from_wikipedia oracle street city k =
        extract_era_and_context_from_wikipedia oracle t city (k + 1)) ∧
    (∀ (oracle : WikiOracle) (street city : List Char),
      (∀ q, ∃ t ts, oracle q = .disambiguationError (t :: ts)) →
      extract_era_and_context_from_wikipedia_retry oracle street city 0 =
        (none, none) ∧
      extract_wiki_calls oracle street city 0 = 4) := by
  constructor
  · intro oracle street city t ts k h hk
    unfold extract_era_and_context_from_wikipedia
    have hr : 3 - k = (3 - (k + 1)) + 1 := by omega
    rw [hr, extract_wiki_aux_step oracle (3 - (k + 1)) street city t ts h]
  · intro oracle street city h
    have hok : extract_era_and_context_from_wikipedia oracle street city 0 =
        .ok (none, none) := wiki_aux_allDisambig oracle h 3 street city
    constructor
    · exact extract_retry_aux_ok oracle (3 - 0) street city (none, none) hok
    · exact wiki_calls_aux_allDisambig oracle h 3 street city

/-- Witness for claim C3 under the always-ambiguous fixture. -/
theorem claim_C3_witness :
    extract_era_and_context_from_wikipedia oracleAmbig (chars "Hi")
        (chars "Ox") 0 =
      extract_era_and_context_from_wikipedia oracleAmbig (chars "X")
        (chars "Ox") 1 ∧
    extract_era_and_context_from_wikipedia_retry oracleAmbig (chars "Hi")
      (chars "Ox") 0 = (none, none) ∧
    extract_wiki_calls oracleAmbig (chars "Hi") (chars "Ox") 0 = 4 :=
  ⟨claim_C3.1 oracleAmbig (chars "Hi") (chars "Ox") (chars "X") [] 0 rfl
      (by decide),
   (claim_C3.2 oracleAmbig (chars "Hi") (chars "Ox")
      (fun _ => ⟨chars "X", [], rfl⟩)).1,
   (claim_C3.2 oracleAmbig (chars "Hi") (chars "Ox")
      (fun _ => ⟨chars "X", [], rfl⟩)).2⟩

/-- Counterexample for claim C2: under an always-transient oracle the retry
wrapper makes exactly one attempt - it never retries, because the
single-lookup function catches the transient exception itself (line 74) and
returns an empty result, which the wrapper treats as success. -/
theorem claim_C2_counterexample :
    extract_era_and_context_from_wikipedia_retry oracleTransient
      (chars "High Street") (chars "Oxford") 0 = (none, none) ∧
    retry_attempts oracleTransient (chars "High Street") (chars "Oxford") = 1 ∧
    ¬ 2 ≤ retry_attempts oracleTransient (chars "High Street")
      (chars "Oxford") :=
  ⟨rfl, rfl, by decide⟩

/-- Claim C2 amended: the jittered sleep of line 82 runs unconditionally
before every attempt, and a transient lookup failure causes no retry: the
single attempt returns the empty pair, the wrapper makes exactly one
attempt (hence one sleep) and one page call, and the street produces no
record. -/
theorem claim_C2_amended :
    ∀ (oracle : WikiOracle) (street city : List Char),
      (∀ q, oracle q = .otherException) →
      extract_era_and_context_from_wikipedia_retry oracle street city 0 =
        (none, none) ∧
      retry_attempts oracle street city = 1 ∧
      extract_wiki_calls oracle street city 0 = 1 := by
  intro oracle street city h
  have hok : extract_era_and_context_from_wikipedia oracle street city 0 =
      .ok (none, none) := by
    unfold extract_era_and_context_from_wikipedia extract_wiki_aux
    rw [h (mkQuery street city)]
  refine ⟨?_, ?_, ?_⟩
  · exact extract_retry_aux_ok oracle (3 - 0) street city (none, none) hok
  · exact retry_attempts_aux_ok oracle 3 street city (none, none) hok
  · unfold extract_wiki_calls extract_wiki_calls_aux
    rw [h (mkQuery street city)]

/-- Witness for the amended claim C2. -/
theorem claim_C2_witness :
    extract_era_and_context_from_wikipedia_retry oracleTransient (chars "Hi")
      (chars "Ox") 0 = (none, none) ∧
    retry_attempts oracleTransient (chars "Hi") (chars "Ox") = 1 ∧
    extract_wiki_calls oracleTransient (chars "Hi") (chars "Ox") 0 = 1 :=
  claim_C2_amended oracleTransient (chars "Hi") (chars "Ox") (fun _ => rfl)

/-- A successful processing result is keyed by the worker's own street. -/
theorem process_street_key (oracle : WikiOracle) (street city k : List Char)
    (v : StreetRecord)
    (h : process_street oracle street city = .ok (some (k, v))) :
    k = street := by
  unfold process_street at h
  split at h
  · split_ifs at h
    · cases h
    · split at h
      · cases h
      · injection h with h'
        injection h' with h''
        exact (congrArg Prod.fst h'').symm
  · cases h

/-- The per-street record exists iff an era token was extracted, nonempty,
and classified. -/
theorem recordValue_isSome_iff (oracle : WikiOracle) (city s : List Char) :
    (recordValue oracle city s).isSome = true ↔
      ∃ era, (extract_era_and_context_from_wikipedia_retry oracle s city 0).1 =
          some era ∧ era ≠ [] ∧ (century_to_era era).isSome = true := by
  unfold recordValue process_street
  rcases hp : extract_era_and_context_from_wikipedia_retry oracle s city 0
    with ⟨eo, ctx⟩
  cases eo with
  | none => simp
  | some era =>
    dsimp only
    by_cases he : era.isEmpty
    · rw [if_pos he]
      simp only [Option.isSome]
      constructor
      · intro h
        cases h
      · rintro ⟨era', h1, h2, h3⟩
        injection h1 with h1
        subst h1
        exact absurd (List.isEmpty_iff.mp he) h2
    · rw [if_neg he]
      rcases hc : century_to_era era with _ | lbl
      · dsimp only
        constructor
        · intro hcontra
          cases hcontra
        · rintro ⟨era', h1, h2, h3⟩
          injection h1 with h1
          subst h1
          rw [hc] at h3
          simp at h3
      · dsimp only
        constructor
        · intro _
          exact ⟨era, rfl, fun hcon => by simp [hcon] at he, by rw [hc]; rfl⟩
        · intro _
          rfl

/-- The per-street record, when present, stores exactly the classified era
and the extracted context. -/
theorem recordValue_eq_some (oracle : WikiOracle) (city s : List Char)
    (v : StreetRecord) (h : recordValue oracle city s = some v) :
    ∃ era context,
      extract_era_and_context_from_wikipedia_retry oracle s city 0 =
        (some era, context) ∧ era ≠ [] ∧
      century_to_era era = some v.era ∧ v.context = context := by
  unfold recordValue process_street at h
  rcases hp : extract_era_and_context_from_wikipedia_retry oracle s city 0
    with ⟨eo, ctx⟩
  rw [hp] at h
  cases eo with
  | none => cases h
  | some era =>
    dsimp only at h
    by_cases he : era.isEmpty
    · rw [if_pos he] at h
      cases h
    · rw [if_neg he] at h
      rcases hc : century_to_era era with _ | lbl
      · rw [hc] at h
        cases h
      · rw [hc] at h
        injection h with h'
        refine ⟨era, ctx, rfl, fun hcon => by simp [hcon] at he, ?_, ?_⟩
        · rw [hc, ← h']
        · rw [← h']

/-- The collection loop fails exactly when some submitted street's
processing raised. -/
theorem collectResults_error_iff (oracle : WikiOracle) (city : List Char) :
    ∀ (order : List (List Char)) (m0 : List (List Char × StreetRecord)),
      collectResults oracle city order m0 = .error () ↔
        ∃ s ∈ order, process_street oracle s city = .error () := by
  intro order
  induction order with
  | nil =>
    intro m0
    simp [collectResults]
  | cons street rest ih =>
    intro m0
    unfold collectResults
    rcases hp : process_street oracle street city with u | o
    · cases u
      simp [hp]
    · rcases o with _ | ⟨k, v⟩
      · rw [ih m0]
        constructor
        · rintro ⟨s, hs, hserr⟩
          exact ⟨s, by simp [hs], hserr⟩
        · rintro ⟨s, hs, hserr⟩
          rcases List.mem_cons.mp hs with rfl | hs'
          · rw [hp] at hserr
            cases hserr
          · exact ⟨s, hs', hserr⟩
      · rw [ih (insertKV m0 k v)]
        constructor
        · rintro ⟨s, hs, hserr⟩
          exact ⟨s, by simp [hs], hserr⟩
        · rintro ⟨s, hs, hserr⟩
          rcases List.mem_cons.mp hs with rfl | hs'
          · rw [hp] at hserr
            cases hserr
          · exact ⟨s, hs', hserr⟩

/-- Looking up a key in the map after the collection loop: the key is bound
to its street's own processing result if the street occurs in the order and
succeeded, and otherwise falls through to the initial map. -/
theorem collectResults_lookup (oracle : WikiOracle) (city : List Char) :
    ∀ (order : List (List Char)) (m0 m : List (List Char × StreetRecord))
      (s : List Char),
      collectResults oracle city order m0 = .ok m →
      mapLookup m s =
        if s ∈ order ∧ (recordValue oracle city s).isSome = true
        then recordValue oracle city s
        else mapLookup m0 s := by
  intro order
  induction order with
  | nil =>
    intro m0 m s h
    unfold collectResults at h
    injection h with h'
    subst h'
    simp
  | cons street rest ih =>
    intro m0 m s h
    unfold collectResults at h
    rcases hp : process_street oracle street city with u | o
    · rw [hp] at h
      cases h
    · rw [hp] at h
      rcases o with _ | ⟨k, v⟩
      · have hrec : recordValue oracle city street = none := by
          unfold recordValue
          rw [hp]
        rw [ih m0 m s h]
        by_cases hs : s = street
        · subst hs
          rw [hrec]
          simp
        · simp [List.mem_cons, hs]
      · have hk : k = street := process_street_key oracle street city k v hp
        subst hk
        have hrec : recordValue oracle city k = some v := by
          unfold recordValue
          rw [hp]
        rw [ih (insertKV m0 k v) m s h]
        by_cases hs : s = k
        · subst hs
          rw [hrec]
          by_cases hmem : s ∈ rest
          · simp [hmem]
          · simp [hmem, insertKV, mapLookup]
        · have : mapLookup (insertKV m0 k v) s = mapLookup m0 s := by
            simp [insertKV, mapLookup, hs]
          rw [this]
          simp [List.mem_cons, hs]

/-- Claim C1: a street is a key of the final mapping iff it was submitted
and an era token was successfully extracted (a nonempty string) and
classified; and every stored value is exactly the classified era with the
extracted context - failed streets are absent, never stored as a null or
"unknown" placeholder. -/
theorem claim_C1 :
    ∀ (oracle : WikiOracle) (city : List Char)
      (street_names : List (List Char)) (max_workers limit : Nat)
      (m : List (List Char × StreetRecord)) (s : List Char),
      extract_street_eras_and_context_parallel_progressbar oracle city
        street_names max_workers limit = .ok m →
      ((mapLookup m s).isSome = true ↔
        (s ∈ submittedStreets street_names limit ∧
          ∃ era,
            (extract_era_and_context_from_wikipedia_retry oracle s city 0).1 =
              some era ∧ era ≠ [] ∧ (century_to_era era).isSome = true)) ∧
      (∀ v, mapLookup m s = some v →
        ∃ era context,
          extract_era_and_context_from_wikipedia_retry oracle s city 0 =
            (some era, context) ∧ era ≠ [] ∧
          century_to_era era = some v.era ∧ v.context = context) := by
  intro oracle city street_names mw limit m s h
  have hlook := collectResults_lookup oracle city
    (submittedStreets street_names limit) [] m s h
  constructor
  · rw [hlook]
    by_cases hc : s ∈ submittedStreets street_names limit ∧
        (recordValue oracle city s).isSome = true
    · rw [if_pos hc]
      constructor
      · intro _
        exact ⟨hc.1, (recordValue_isSome_iff oracle city s).mp hc.2⟩
      · intro _
        exact hc.2
    · rw [if_neg hc]
      simp only [mapLookup]
      constructor
      · intro hfalse
        simp at hfalse
      · rintro ⟨hmem, hex⟩
        exact absurd ⟨hmem, (recordValue_isSome_iff oracle city s).mpr hex⟩ hc
  · intro v hv
    rw [hlook] at hv
    split_ifs at hv with hcond
    · exact recordValue_eq_some oracle city s v hv
    · simp [mapLookup] at hv

/-- Witness for claim C1 under the one-street fixture. -/
theorem claim_C1_witness :
    ((mapLookup [(chars "Hi", recA)] (chars "Hi")).isSome = true ↔
      (chars "Hi" ∈ submittedStreets [chars "Hi", chars "Lo"] 100 ∧
        ∃ era,
          (extract_era_and_context_from_wikipedia_retry oracleA (chars "Hi")
            (chars "Ox") 0).1 = some era ∧ era ≠ [] ∧
          (century_to_era era).isSome = true)) ∧
    (∀ v, mapLookup [(chars "Hi", recA)] (chars "Hi") = some v →
      ∃ era context,
        extract_era_and_context_from_wikipedia_retry oracleA (chars "Hi")
          (chars "Ox") 0 = (some era, context) ∧ era ≠ [] ∧
        century_to_era era = some v.era ∧ v.context = context) :=
  claim_C1 oracleA (chars "Ox") [chars "Hi", chars "Lo"] 10 100
    [(chars "Hi", recA)] (chars "Hi") rfl

/-- Claim C9: the final mapping does not depend on the completion order of
the futures - for any permutation of the submitted street list, the
collection loop errors iff the pipeline errors, and on success the two
mappings agree on every key.  The worker-pool size is not part of the data
path at all (it only sizes the thread pool), so the mapping is independent
of it, and re-running the pipeline on the same inputs is literally the same
function application. -/
theorem claim_C9 :
    ∀ (oracle : WikiOracle) (city : List Char)
      (street_names : List (List Char)) (max_workers limit : Nat)
      (order : List (List Char)),
      order.Perm (submittedStreets street_names limit) →
      ((collectResults oracle city order [] = .error ()) ↔
        (extract_street_eras_and_context_parallel_progressbar oracle city
          street_names max_workers limit = .error ())) ∧
      (∀ m1 m2 s,
        collectResults oracle city order [] = .ok m1 →
        extract_street_eras_and_context_parallel_progressbar oracle city
          street_names max_workers limit = .ok m2 →
        mapLookup m1 s = mapLookup m2 s) := by
  intro oracle city sn mw limit order hperm
  have hpipe : extract_street_eras_and_context_parallel_progressbar oracle
      city sn mw limit =
      collectResults oracle city (submittedStreets sn limit) [] := rfl
  constructor
  · rw [hpipe, collectResults_error_iff oracle city order [],
      collectResults_error_iff oracle city (submittedStreets sn limit) []]
    constructor
    · rintro ⟨s, hs, he⟩
      exact ⟨s, hperm.mem_iff.mp hs, he⟩
    · rintro ⟨s, hs, he⟩
      exact ⟨s, hperm.mem_iff.mpr hs, he⟩
  · intro m1 m2 s h1 h2
    rw [hpipe] at h2
    have e1 := collectResults_lookup oracle city order [] m1 s h1
    have e2 := collectResults_lookup oracle city (submittedStreets sn limit)
      [] m2 s h2
    have hm : (s ∈ order) = (s ∈ submittedStreets sn limit) :=
      propext hperm.mem_iff
    rw [e1, e2]
    simp only [hm]

/-- Witness for claim C9: the two-street fixture collected in the two
possible completion orders produces maps with different entry order but
equal lookups. -/
theorem claim_C9_witness :
    mapLookup [(chars "Hi", recA), (chars "Lo", recB)] (chars "Hi") =
      mapLookup [(chars "Lo", recB), (chars "Hi", recA)] (chars "Hi") :=
  (claim_C9 oracleB (chars "Ox") [chars "Hi", chars "Lo"] 1 100
    [chars "Lo", chars "Hi"] (by decide)).2
    [(chars "Hi", recA), (chars "Lo", recB)]
    [(chars "Lo", recB), (chars "Hi", recA)] (chars "Hi") rfl rfl

/-- Counterexample for claim C10: the submitted street list is not
deduplicated, so its keys need not be pairwise distinct - a street name
appearing on two graph edges is submitted twice. -/
theorem claim_C10_counterexample :
    ¬ (submittedStreets [chars "Abbey Road", chars "Abbey Road"] 100).Pairwise
        (fun a b => a ≠ b) := by decide

/-- Claim C10 amended: each worker contributes at most one entry, keyed by
its own street name, but submitted street names need not be pairwise
distinct; colliding workers write identical values (processing is a
deterministic function of street and city), so the final mapping is still
exactly the per-street result over the submitted set. -/
theorem claim_C10_amended :
    (∀ (oracle : WikiOracle) (street city k : List Char) (v : StreetRecord),
      process_street oracle street city = .ok (some (k, v)) → k = street) ∧
    (∀ (oracle : WikiOracle) (city : List Char)
        (street_names : List (List Char)) (max_workers limit : Nat)
        (m : List (List Char × StreetRecord)) (s : List Char),
      extract_street_eras_and_context_parallel_progressbar oracle city
        street_names max_workers limit = .ok m →
      mapLookup m s =
        if s ∈ submittedStreets street_names limit ∧
            (recordValue oracle city s).isSome = true
        then recordValue oracle city s
        else none) := by
  constructor
  · exact process_street_key
  · intro oracle city sn mw limit m s h
    rw [collectResults_lookup oracle city (submittedStreets sn limit) [] m s h]
    split_ifs <;> rfl

/-- Witness for the amended claim C10, on a duplicated street name. -/
theorem claim_C10_witness :
    chars "Hi" = chars "Hi" ∧
    mapLookup [(chars "Hi", recA), (chars "Hi", recA)] (chars "Hi") =
      (if chars "Hi" ∈ submittedStreets [chars "Hi", chars "Hi"] 100 ∧
          (recordValue oracleA (chars "Ox") (chars "Hi")).isSome = true
       then recordValue oracleA (chars "Ox") (chars "Hi")
       else none) :=
  ⟨claim_C10_amended.1 oracleA (chars "Hi") (chars "Ox") (chars "Hi") recA rfl,
   claim_C10_amended.2 oracleA (chars "Ox") [chars "Hi", chars "Hi"] 10 100
     [(chars "Hi", recA), (chars "Hi", recA)] (chars "Hi") rfl⟩

end TemporalStreets
